import Mathlib

set_option maxRecDepth 100000

/-!
Shallow embedding of `scripts/codex.ts` (the input-resolution and
session-continuity CLI adapter).

Modelling conventions:
* JavaScript `undefined`-or-string fields become `Option String`; JS
  truthiness of such a field (`undefined` and `""` are falsy) is `otruthy`.
* `process.argv.slice(2)` is `Env.args`; `readFileSync` over the file system
  is `Env.fs : String → Option String` (`none` = the read throws);
  `process.stdin` is `Env.stdinTTY` / `Env.stdinData`;
  `process.env.OPENAI_API_KEY` (after the dotenv load) is `Env.apiKey`.
* `JSON.parse` of the raw payload is an oracle `parse : String → Option Input`
  passed to the pipeline (`none` = the parse throws). The positional-argument
  branch of the source builds its payload with `JSON.stringify` and
  immediately re-parses it; the round trip is the identity, so that branch
  carries the synthesized `Input` directly.
* The Codex SDK is the external collaborator: a resumed thread's id is the id
  it was resumed with, a started thread's id is `Env.newThreadId`, and
  `thread.run` is `Env.runResult` (already normalized to response text, as in
  lines 228-235 of the source; `Except.error` = the awaited call throws).
* `process.exit(1)` with an error payload is `Outcome.failure`, the
  `--validate` exit 0 is `Outcome.validated`, and the success payload is
  `Outcome.success`. The second component of `runMain` is the content of the
  persisted state file after the invocation.
-/

/-- The persisted session record (`interface State`, lines 15-21). -/
structure State where
  threadId : Option String := none
  topic : Option String := none
  lastUsed : Option String := none
  messageCount : Option Nat := none
  workingDirectory : Option String := none
deriving Repr, DecidableEq

/-- The parsed request (`interface Input`, lines 23-29, plus the
`promptFile` field read at line 130).  `prompt` is optional here because the
JSON payload may omit it; the source checks `!input.prompt` at line 155. -/
structure Input where
  action : String
  prompt : Option String := none
  context : Option String := none
  topic : Option String := none
  workingDirectory : Option String := none
  promptFile : Option String := none
deriving Repr, DecidableEq

/-- JS truthiness of an optional string: `undefined` and `""` are falsy. -/
def otruthy : Option String → Bool
  | none => false
  | some s => s != ""

/-- JS `a || b` on optional strings. -/
def orElseStr (a b : Option String) : Option String :=
  if otruthy a then a else b

/-- The distinct fatal error payloads of the source (§7 of the spec);
each carries the data its message interpolates. -/
inductive ErrKind where
  | inputFileRead (path : String)
  | noInput
  | invalidJSON (preview : String)
  | promptFileRead (path : String)
  | invalidAction (a : String)
  | missingPrompt
  | missingApiKey
  | codexError (msg : String)
deriving Repr, DecidableEq

/-- The located raw payload: raw JSON text still to be parsed, or the
request synthesized from positional arguments (line 88; the
`JSON.stringify`/`JSON.parse` round trip is the identity). -/
inductive InputData where
  | raw (s : String)
  | synthesized (input : Input)
deriving Repr, DecidableEq

/-- The whole outside world of one invocation. -/
structure Env where
  args : List String
  stdinTTY : Bool
  stdinData : String
  fs : String → Option String
  apiKey : Option String
  priorState : State
  newThreadId : String
  now : String
  runResult : String → Except String String

/-- `args.indexOf(flag)` followed by the truthiness test of
`args[index + 1]` (lines 61-62, 68, 115): the value after the FIRST
occurrence of the flag, provided it exists and is non-empty. -/
def flagArg (args : List String) (flag : String) : Option String :=
  match args.findIdx? (· == flag) with
  | none => none
  | some i =>
    match args.get? (i + 1) with
    | none => none
    | some v => if v == "" then none else some v

/-- Input location, lines 61-98: `--input-file`, then piped stdin, then
positional arguments, then the "no input provided" error. -/
def resolveInputData (env : Env) : Except ErrKind InputData :=
  match flagArg env.args "--input-file" with
  | some path =>
    match env.fs path with
    | some content => .ok (.raw content)
    | none => .error (.inputFileRead path)
  | none =>
    if env.stdinTTY = false then
      .ok (.raw env.stdinData)
    else
      match env.args with
      | [] => .error .noInput
      | a :: _ =>
        if a.startsWith "--" then .error .noInput
        else .ok (.synthesized
          { action := "new", prompt := some (String.intercalate " " env.args) })

/-- `JSON.parse(inputData)`, lines 100-112, with the 200-character preview
of the offending text. -/
def parseStep (parse : String → Option Input) : InputData → Except ErrKind Input
  | .raw s =>
    match parse s with
    | some i => .ok i
    | none => .error (.invalidJSON (s.take 200))
  | .synthesized i => .ok i

/-- Prompt-file override, lines 114-143: the `--prompt-file` flag wins;
otherwise a truthy `promptFile` JSON field is used; the file contents
replace `input.prompt` wholesale. -/
def applyPromptFile (env : Env) (input : Input) : Except ErrKind Input :=
  match flagArg env.args "--prompt-file" with
  | some path =>
    match env.fs path with
    | some content => .ok { input with prompt := some content }
    | none => .error (.promptFileRead path)
  | none =>
    match input.promptFile with
    | some path =>
      if path == "" then .ok input
      else
        match env.fs path with
        | some content => .ok { input with prompt := some content }
        | none => .error (.promptFileRead path)
    | none => .ok input

/-- Validation, lines 146-162: `action` must be `"new"` or `"continue"`,
then the effective prompt must be truthy. -/
def validateInput (input : Input) : Option ErrKind :=
  if !(input.action == "new" || input.action == "continue") then
    some (.invalidAction input.action)
  else if !(otruthy input.prompt) then
    some .missingPrompt
  else
    none

/-- The `--validate` report, lines 166-173. -/
structure ValidationReport where
  valid : Bool
  action : String
  promptLength : Nat
  hasContext : Bool
  hasTopic : Bool
  hasWorkingDirectory : Bool
deriving Repr, DecidableEq

/-- Builds the `--validate` report from the validated input. -/
def mkReport (input : Input) : ValidationReport :=
  { valid := true
    action := input.action
    promptLength := (input.prompt.getD "").length
    hasContext := otruthy input.context
    hasTopic := otruthy input.topic
    hasWorkingDirectory := otruthy input.workingDirectory }

/-- Line 205: `input.workingDirectory || state.workingDirectory`. -/
def effectiveWorkingDir (input : Input) (state : State) : Option String :=
  orElseStr input.workingDirectory state.workingDirectory

/-- Lines 206-208: `threadOptions.workingDirectory` is set only when the
effective working directory is truthy. -/
def threadOptionsWd (input : Input) (state : State) : Option String :=
  if otruthy (effectiveWorkingDir input state) then
    effectiveWorkingDir input state
  else none

/-- Lines 218-222: the outbound text is `context + "\n\n" + prompt` when
`context` is truthy, else the prompt verbatim. -/
def buildFullPrompt (input : Input) : String :=
  if otruthy input.context then
    input.context.getD "" ++ "\n\n" ++ input.prompt.getD ""
  else
    input.prompt.getD ""

/-- What the success path reports and passed to the SDK: the thread id,
the normalized response, the outbound text, whether the thread was resumed
(`isNewThread = !resumed`), and the `workingDirectory` thread option. -/
structure SuccessOut where
  threadId : String
  response : String
  fullPrompt : String
  resumed : Bool
  optionsWd : Option String
deriving Repr, DecidableEq

/-- The `try` block, lines 192-252: thread decision (line 211), prompt
shaping, the external call, and the state rewrite (lines 238-245). -/
def runCore (env : Env) (input : Input) : Except ErrKind (SuccessOut × State) :=
  let state := env.priorState
  let resumed := input.action == "continue" && otruthy state.threadId
  let tid := if resumed then state.threadId.getD "" else env.newThreadId
  let fullPrompt := buildFullPrompt input
  match env.runResult fullPrompt with
  | .error e => .error (.codexError e)
  | .ok resp =>
    let newState : State :=
      { threadId := some tid
        topic := orElseStr (orElseStr input.topic state.topic) (some "general review")
        lastUsed := some env.now
        messageCount := some ((if resumed then state.messageCount.getD 0 else 0) + 1)
        workingDirectory := effectiveWorkingDir input state }
    .ok ({ threadId := tid
           response := resp
           fullPrompt := fullPrompt
           resumed := resumed
           optionsWd := threadOptionsWd input state }, newState)

/-- The observable outcome of one invocation. -/
inductive Outcome where
  | failure (e : ErrKind)
  | validated (r : ValidationReport)
  | success (out : SuccessOut)
deriving Repr, DecidableEq

/-- The whole of `main()`: outcome plus the persisted state file content
after the invocation (`env.priorState` everywhere except the success path,
since `saveState` is called only at line 245). -/
def runMain (parse : String → Option Input) (env : Env) : Outcome × State :=
  match resolveInputData env with
  | .error e => (.failure e, env.priorState)
  | .ok d =>
    match parseStep parse d with
    | .error e => (.failure e, env.priorState)
    | .ok i0 =>
      match applyPromptFile env i0 with
      | .error e => (.failure e, env.priorState)
      | .ok input =>
        match validateInput input with
        | some e => (.failure e, env.priorState)
        | none =>
          if env.args.contains "--validate" then
            (.validated (mkReport input), env.priorState)
          else if !(otruthy env.apiKey) then
            (.failure .missingApiKey, env.priorState)
          else
            match runCore env input with
            | .error e => (.failure e, env.priorState)
            | .ok (out, st) => (.success out, st)

/-! ## Concrete data for witnesses -/

/-- A file system on which every read throws. -/
def fsNone : String → Option String := fun _ => none

/-- An external service that answers `"done"` to every prompt. -/
def runOk : String → Except String String := fun _ => .ok "done"

/-- A prior session record with an existing thread and three messages. -/
def stPrior : State :=
  { threadId := some "T0", topic := some "t", lastUsed := some "x",
    messageCount := some 3, workingDirectory := some "/w" }

/-- A base environment: no CLI arguments, piped empty stdin, the API key
set, and `stPrior` persisted. -/
def envBase : Env :=
  { args := [], stdinTTY := false, stdinData := "", fs := fsNone,
    apiKey := some "k", priorState := stPrior, newThreadId := "T1",
    now := "now", runResult := runOk }

/-- A continue request. -/
def inputCont : Input := { action := "continue", prompt := some "p" }

/-- The success payload of `runCore envBase inputCont`. -/
def outContW : SuccessOut :=
  { threadId := "T0", response := "done", fullPrompt := "p",
    resumed := true, optionsWd := some "/w" }

/-- The persisted record after `runCore envBase inputCont`. -/
def stContW : State :=
  { threadId := some "T0", topic := some "t", lastUsed := some "now",
    messageCount := some 4, workingDirectory := some "/w" }

/-- A parse oracle on which `JSON.parse` always throws. -/
def parseNone : String → Option Input := fun _ => none

/-- `envBase` with a prior record holding no thread id. -/
def stNoTid : State := { stPrior with threadId := none }

/-- `envBase` with `stNoTid` persisted. -/
def envNoTid : Env := { envBase with priorState := stNoTid }

/-- A file system holding only `in.json`. -/
def fsIn : String → Option String :=
  fun p => if p == "in.json" then some "content" else none

/-- An environment given both `--input-file in.json` and piped stdin. -/
def envFile : Env :=
  { envBase with args := ["--input-file", "in.json"], stdinData := "piped", fs := fsIn }

/-- A file system holding only `p.txt`. -/
def fsPF : String → Option String :=
  fun p => if p == "p.txt" then some "FILE" else none

/-- An environment given `--prompt-file p.txt`. -/
def envPF : Env := { envBase with args := ["--prompt-file", "p.txt"], fs := fsPF }

/-- A request carrying both a JSON prompt and a JSON `promptFile` field. -/
def inputPF : Input :=
  { action := "new", prompt := some "json", promptFile := some "other.txt" }

/-- A request with a non-empty context. -/
def inputCtx : Input := { action := "new", prompt := some "p", context := some "c" }

/-- A minimal valid request. -/
def inputV : Input := { action := "new", prompt := some "hi" }

/-- A parse oracle returning `inputV` for every payload. -/
def parseV : String → Option Input := fun _ => some inputV

/-- An environment invoking `--validate` with piped input and NO api key. -/
def envV : Env :=
  { envBase with args := ["--validate"], apiKey := none, stdinData := "payload" }

/-- A request naming its own working directory. -/
def inputWd : Input :=
  { action := "new", prompt := some "p", workingDirectory := some "/req" }

/-- The success payload of `runCore envBase inputWd`. -/
def outWdW : SuccessOut :=
  { threadId := "T1", response := "done", fullPrompt := "p",
    resumed := false, optionsWd := some "/req" }

/-- The persisted record after `runCore envBase inputWd`. -/
def stWdW : State :=
  { threadId := some "T1", topic := some "t", lastUsed := some "now",
    messageCount := some 1, workingDirectory := some "/req" }

/-- An environment whose LAST argument is a bare `--input-file` flag,
with data piped on stdin. -/
def envTrail : Env :=
  { envBase with args := ["hello", "--input-file"], stdinData := "piped" }

/-- A request whose optional string fields are all the empty string. -/
def inputEmptyCtx : Input :=
  { action := "new", prompt := some "p", context := some "",
    topic := some "", workingDirectory := some "" }

/-! ## Helper lemmas -/

/-- `buildFullPrompt` ignores the `action` field. -/
theorem buildFullPrompt_set_action (input : Input) (a : String) :
    buildFullPrompt { input with action := a } = buildFullPrompt input := rfl

/-- `effectiveWorkingDir` ignores the `action` field. -/
theorem effectiveWorkingDir_set_action (input : Input) (st : State) (a : String) :
    effectiveWorkingDir { input with action := a } st = effectiveWorkingDir input st := rfl

/-- `threadOptionsWd` ignores the `action` field. -/
theorem threadOptionsWd_set_action (input : Input) (st : State) (a : String) :
    threadOptionsWd { input with action := a } st = threadOptionsWd input st := rfl

/-- `findIdx?` over an equality test finds a trailing element absent from
the prefix at the prefix's length. -/
theorem findIdx?_eq_beq_append_singleton (f : String) (l : List String)
    (hf : f ∉ l) (i : Nat) :
    (l ++ [f]).findIdx? (· == f) i = some (i + l.length) := by
  induction l generalizing i with
  | nil => simp [List.findIdx?]
  | cons a t ih =>
    have ha : (a == f) = false := by
      simp only [List.mem_cons, not_or] at hf
      simp only [beq_eq_false_iff_ne, ne_eq]
      exact fun hh => hf.1 hh.symm
    have ht : f ∉ t := by
      simp only [List.mem_cons, not_or] at hf
      exact hf.2
    simp only [List.cons_append, List.findIdx?_cons, ha, if_false, ih ht (i + 1)]
    simp
    omega

/-- A flag that occurs only as the very last argument has nothing after
it, so `flagArg` yields nothing for it. -/
theorem flagArg_trailing (l : List String) (f : String) (hf : f ∉ l) :
    flagArg (l ++ [f]) f = none := by
  have hidx : (l ++ [f]).findIdx? (· == f) = some l.length := by
    simpa using findIdx?_eq_beq_append_singleton f l hf 0
  have hget : (l ++ [f])[l.length + 1]? = none := by
    apply List.getElem?_eq_none
    simp
  simp [flagArg, hidx, hget]

/-- Every invocation either leaves the persisted record exactly as it was
or ends in the success outcome. -/
theorem runMain_state_cases (parse : String → Option Input) (env : Env) :
    (runMain parse env).2 = env.priorState
    ∨ ∃ out, (runMain parse env).1 = .success out := by
  rcases h1 : resolveInputData env with e1 | d
  · simp [runMain, h1]
  rcases h2 : parseStep parse d with e2 | i0
  · simp [runMain, h1, h2]
  rcases h3 : applyPromptFile env i0 with e3 | input
  · simp [runMain, h1, h2, h3]
  rcases h4 : validateInput input with _ | e4
  case ok.ok.ok.some => simp [runMain, h1, h2, h3, h4]
  by_cases h5 : "--validate" ∈ env.args
  · simp [runMain, h1, h2, h3, h4, h5]
  · by_cases h6 : otruthy env.apiKey = true
    · rcases h7 : runCore env input with e7 | ⟨out, st⟩
      · simp [runMain, h1, h2, h3, h4, h5, h6, h7]
      · right
        exact ⟨out, by simp [runMain, h1, h2, h3, h4, h5, h6, h7]⟩
    · simp [runMain, h1, h2, h3, h4, h5, h6]

/-! ## Claim theorems -/

/-- C1: after a successful run, `messageCount` is exactly 1 whenever
`action = "new"` (regardless of the prior record), and when
`action = "continue"` finds a prior `threadId`, the resumed thread is
exactly that id and the new `messageCount` is the prior count plus one. -/
theorem runCore_messageCount_spec (env : Env) (input : Input) :
    (input.action = "new" →
      ∀ out st, runCore env input = .ok (out, st) → st.messageCount = some 1)
  ∧ (input.action = "continue" →
      ∀ t n, env.priorState.threadId = some t → t ≠ "" →
        env.priorState.messageCount = some n →
        ∀ out st, runCore env input = .ok (out, st) →
          out.threadId = t ∧ out.resumed = true ∧ st.messageCount = some (n + 1)) := by
  constructor
  · intro hnew out st h
    simp only [runCore, hnew] at h
    split at h
    · simp at h
    · simp at h
      obtain ⟨-, hst⟩ := h
      simp [← hst]
  · intro hcont t n ht htne hn out st h
    simp only [runCore, hcont] at h
    split at h
    · simp at h
    · simp [ht, htne, otruthy, hn] at h
      obtain ⟨hout, hst⟩ := h
      simp [← hout, ← hst, ht, htne, otruthy, hn]

/-- C1 witness: continuing over `stPrior` (thread `"T0"`, count 3) resumes
`"T0"` and persists count 4. -/
theorem runCore_messageCount_witness :
    runCore envBase inputCont = .ok (outContW, stContW)
    ∧ (outContW.threadId = "T0" ∧ outContW.resumed = true
       ∧ stContW.messageCount = some (3 + 1)) :=
  ⟨rfl, (runCore_messageCount_spec envBase inputCont).2 rfl "T0" 3 rfl
      (by decide) rfl outContW stContW rfl⟩

/-- C2: on every failure outcome of an invocation, the persisted session
record is left exactly as it was. -/
theorem failure_leaves_state_unchanged (parse : String → Option Input)
    (env : Env) (e : ErrKind) (h : (runMain parse env).1 = .failure e) :
    (runMain parse env).2 = env.priorState := by
  rcases runMain_state_cases parse env with h2 | ⟨out, hout⟩
  · exact h2
  · rw [h] at hout
    cases hout

/-- C2 witness: a parse failure emits the invalid-JSON error and leaves
`stPrior` persisted. -/
theorem failure_leaves_state_witness :
    (runMain parseNone envBase).1 = .failure (.invalidJSON "")
    ∧ (runMain parseNone envBase).2 = envBase.priorState :=
  ⟨rfl, failure_leaves_state_unchanged parseNone envBase (.invalidJSON "") rfl⟩

/-- C3: `action = "continue"` with no truthy prior `threadId` behaves
identically to `action = "new"`: same outcome, a fresh (non-resumed)
thread, and persisted `messageCount` 1 on success. -/
theorem runCore_continue_fallback (env : Env) (input : Input)
    (hact : input.action = "continue")
    (hno : otruthy env.priorState.threadId = false) :
    runCore env input = runCore env { input with action := "new" }
    ∧ ∀ out st, runCore env input = .ok (out, st) →
        out.resumed = false ∧ st.messageCount = some 1 := by
  constructor
  · simp [runCore, hact, hno, buildFullPrompt_set_action,
      effectiveWorkingDir_set_action, threadOptionsWd_set_action]
  · intro out st h
    simp only [runCore, hact, hno] at h
    split at h
    · simp at h
    · simp [hno] at h
      obtain ⟨hout, hst⟩ := h
      simp [← hout, ← hst]

/-- C3 witness: continuing with no prior thread id equals starting new. -/
theorem runCore_continue_fallback_witness :
    inputCont.action = "continue"
    ∧ otruthy envNoTid.priorState.threadId = false
    ∧ runCore envNoTid inputCont = runCore envNoTid { inputCont with action := "new" } :=
  ⟨rfl, rfl, (runCore_continue_fallback envNoTid inputCont rfl rfl).1⟩

/-- C4: raw input is located by strict first-match-wins precedence:
a `--input-file` flag with a path is used exclusively (its read failure is
fatal); else piped stdin is read; else positional arguments not starting
with `--` synthesize a new-action request from the space-joined arguments;
else the invocation fails with the no-input error. -/
theorem resolveInputData_precedence (env : Env) :
    (∀ path, flagArg env.args "--input-file" = some path →
       (∀ c, env.fs path = some c → resolveInputData env = .ok (.raw c))
       ∧ (env.fs path = none → resolveInputData env = .error (.inputFileRead path)))
  ∧ (flagArg env.args "--input-file" = none → env.stdinTTY = false →
       resolveInputData env = .ok (.raw env.stdinData))
  ∧ (flagArg env.args "--input-file" = none → env.stdinTTY = true →
       ∀ a rest, env.args = a :: rest → a.startsWith "--" = false →
         resolveInputData env = .ok (.synthesized
           { action := "new", prompt := some (String.intercalate " " env.args) }))
  ∧ (flagArg env.args "--input-file" = none → env.stdinTTY = true →
       (env.args = [] ∨ ∃ a rest, env.args = a :: rest ∧ a.startsWith "--" = true) →
         resolveInputData env = .error .noInput) := by
  refine ⟨?_, ?_, ?_, ?_⟩
  · intro path hflag
    refine ⟨?_, ?_⟩
    · intro c hc
      simp [resolveInputData, hflag, hc]
    · intro hc
      simp [resolveInputData, hflag, hc]
  · intro hflag htty
    simp [resolveInputData, hflag, htty]
  · intro hflag htty a rest hargs hsw
    simp only [resolveInputData, hflag, htty]
    rw [hargs]
    simp [hsw, ← hargs]
  · intro hflag htty hcase
    rcases hcase with hnil | ⟨a, rest, hargs, hsw⟩
    · simp only [resolveInputData, hflag, htty]
      rw [hnil]
      simp
    · simp only [resolveInputData, hflag, htty]
      rw [hargs]
      simp [hsw]

/-- C4 witness: with both `--input-file in.json` and piped stdin data, the
file content is used exclusively. -/
theorem resolveInputData_precedence_witness :
    flagArg envFile.args "--input-file" = some "in.json"
    ∧ envFile.fs "in.json" = some "content"
    ∧ envFile.stdinTTY = false
    ∧ resolveInputData envFile = .ok (.raw "content") :=
  ⟨rfl, rfl, rfl,
    ((resolveInputData_precedence envFile).1 "in.json" rfl).1 "content" rfl⟩

/-- C5: a specified prompt file wholesale replaces the JSON-supplied
prompt; the `--prompt-file` flag wins over the JSON `promptFile` field
(whose file is then not even read); a read failure of the chosen file is a
fatal error naming the offending path. -/
theorem applyPromptFile_precedence (env : Env) (input : Input) :
    (∀ path, flagArg env.args "--prompt-file" = some path →
       ((∀ c, env.fs path = some c →
           applyPromptFile env input = .ok { input with prompt := some c })
        ∧ (env.fs path = none →
           applyPromptFile env input = .error (.promptFileRead path))
        ∧ ∀ fs2 : String → Option String, fs2 path = env.fs path →
            applyPromptFile { env with fs := fs2 } input
              = applyPromptFile env input))
  ∧ (flagArg env.args "--prompt-file" = none →
       ∀ path, input.promptFile = some path → path ≠ "" →
         (∀ c, env.fs path = some c →
            applyPromptFile env input = .ok { input with prompt := some c })
         ∧ (env.fs path = none →
            applyPromptFile env input = .error (.promptFileRead path))) := by
  refine ⟨?_, ?_⟩
  · intro path hflag
    refine ⟨?_, ?_, ?_⟩
    · intro c hc
      simp [applyPromptFile, hflag, hc]
    · intro hc
      simp [applyPromptFile, hflag, hc]
    · intro fs2 hfs
      cases hc : env.fs path <;> rw [hc] at hfs <;>
        simp [applyPromptFile, hflag, hc, hfs]
  · intro hflag path hpf hpne
    refine ⟨?_, ?_⟩
    · intro c hc
      simp [applyPromptFile, hflag, hpf, hpne, hc]
    · intro hc
      simp [applyPromptFile, hflag, hpf, hpne, hc]

/-- C5 witness: with `--prompt-file p.txt` and a JSON payload carrying both
a prompt and a `promptFile` field, the flag's file contents replace the
prompt. -/
theorem applyPromptFile_precedence_witness :
    flagArg envPF.args "--prompt-file" = some "p.txt"
    ∧ envPF.fs "p.txt" = some "FILE"
    ∧ inputPF.prompt = some "json"
    ∧ applyPromptFile envPF inputPF = .ok { inputPF with prompt := some "FILE" } :=
  ⟨rfl, rfl, rfl,
    ((applyPromptFile_precedence envPF inputPF).1 "p.txt" rfl).1 "FILE" rfl⟩

/-- C6: the text sent to the external thread is
`context ++ "\n\n" ++ prompt` when a non-empty context is present, and the
prompt verbatim when context is absent. -/
theorem runCore_fullPrompt_spec (env : Env) (input : Input) :
    (∀ out st, runCore env input = .ok (out, st) →
        out.fullPrompt = buildFullPrompt input
        ∧ env.runResult (buildFullPrompt input) = .ok out.response)
  ∧ (∀ c, input.context = some c → c ≠ "" →
        buildFullPrompt input = c ++ "\n\n" ++ input.prompt.getD "")
  ∧ (input.context = none → buildFullPrompt input = input.prompt.getD "") := by
  refine ⟨?_, ?_, ?_⟩
  · intro out st h
    simp only [runCore] at h
    split at h
    · simp at h
    · rename_i resp heq
      simp at h
      obtain ⟨hout, -⟩ := h
      refine ⟨by simp [← hout], ?_⟩
      rw [heq]
      simp [← hout]
  · intro c hc hcne
    simp [buildFullPrompt, hc, otruthy, hcne]
  · intro hc
    simp [buildFullPrompt, hc, otruthy]

/-- C6 witness: context `"c"` and prompt `"p"` go out as `"c\n\np"`. -/
theorem runCore_fullPrompt_witness :
    inputCtx.context = some "c"
    ∧ buildFullPrompt inputCtx = "c" ++ "\n\n" ++ inputCtx.prompt.getD "" :=
  ⟨rfl, (runCore_fullPrompt_spec envBase inputCtx).2.1 "c" rfl (by decide)⟩

/-- C7: with `--validate`, any input that passes validation short-circuits:
the outcome is the validation report (valid, action, prompt length, and
the three presence flags), the persisted record is untouched, and the
result is the same for every API key (including an unset one) and every
external-service behaviour — no external call is made. -/
theorem validate_mode_spec (parse : String → Option Input) (env : Env)
    (d : InputData) (i0 input : Input)
    (h1 : resolveInputData env = .ok d)
    (h2 : parseStep parse d = .ok i0)
    (h3 : applyPromptFile env i0 = .ok input)
    (h4 : validateInput input = none)
    (h5 : "--validate" ∈ env.args) :
    runMain parse env = (.validated (mkReport input), env.priorState)
    ∧ mkReport input = { valid := true, action := input.action, promptLength := (input.prompt.getD "").length, hasContext := otruthy input.context, hasTopic := otruthy input.topic, hasWorkingDirectory := otruthy input.workingDirectory }
    ∧ ∀ (key : Option String) (run2 : String → Except String String),
        runMain parse { env with apiKey := key, runResult := run2 }
          = (.validated (mkReport input), env.priorState) := by
  refine ⟨?_, rfl, ?_⟩
  · simp [runMain, h1, h2, h3, h4, h5]
  · intro key run2
    have h1' : resolveInputData { env with apiKey := key, runResult := run2 }
        = .ok d := h1
    have h3' : applyPromptFile { env with apiKey := key, runResult := run2 } i0
        = .ok input := h3
    simp [runMain, h1', h2, h3', h4, h5]

/-- C7 witness: `--validate` with no API key set reports on the piped
payload and persists nothing. -/
theorem validate_mode_witness :
    envV.apiKey = none
    ∧ runMain parseV envV = (.validated (mkReport inputV), envV.priorState) :=
  ⟨rfl, (validate_mode_spec parseV envV (.raw "payload") inputV inputV
      rfl rfl rfl rfl (by decide)).1⟩

/-- C8: the working directory passed to the thread-open options is the
request's when truthy, else the persisted record's; the resolved value
(request's, falling back to the record's) is what is written back into the
session record on success. -/
theorem runCore_workingDir_spec (env : Env) (input : Input)
    (out : SuccessOut) (st : State) (h : runCore env input = .ok (out, st)) :
    st.workingDirectory = effectiveWorkingDir input env.priorState
    ∧ out.optionsWd = threadOptionsWd input env.priorState
    ∧ (∀ w, input.workingDirectory = some w → w ≠ "" →
        out.optionsWd = some w ∧ st.workingDirectory = some w)
    ∧ (input.workingDirectory = none →
        ∀ w, env.priorState.workingDirectory = some w → w ≠ "" →
          out.optionsWd = some w ∧ st.workingDirectory = some w) := by
  have hbase : st.workingDirectory = effectiveWorkingDir input env.priorState
      ∧ out.optionsWd = threadOptionsWd input env.priorState := by
    simp only [runCore] at h
    split at h
    · simp at h
    · simp at h
      obtain ⟨hout, hst⟩ := h
      simp [← hout, ← hst]
  obtain ⟨h1, h2⟩ := hbase
  refine ⟨h1, h2, ?_, ?_⟩
  · intro w hw hwne
    refine ⟨?_, ?_⟩
    · rw [h2]; simp [threadOptionsWd, effectiveWorkingDir, orElseStr, hw, otruthy, hwne]
    · rw [h1]; simp [effectiveWorkingDir, orElseStr, hw, otruthy, hwne]
  · intro hw w hpw hwne
    refine ⟨?_, ?_⟩
    · rw [h2]; simp [threadOptionsWd, effectiveWorkingDir, orElseStr, hw, hpw, otruthy, hwne]
    · rw [h1]; simp [effectiveWorkingDir, orElseStr, hw, hpw, otruthy, hwne]

/-- C8 witness: a request naming `/req` sends `/req` to the thread options
and persists it, overriding the record's `/w`. -/
theorem runCore_workingDir_witness :
    runCore envBase inputWd = .ok (outWdW, stWdW)
    ∧ (outWdW.optionsWd = some "/req" ∧ stWdW.workingDirectory = some "/req") :=
  ⟨rfl, (runCore_workingDir_spec envBase inputWd outWdW stWdW rfl).2.2.1
      "/req" rfl (by decide)⟩

/-- C9: a `--input-file` flag that is the last argument is silently
ignored (input resolution falls through to stdin and never raises the
input-file read error); a trailing `--prompt-file` flag with a falsy JSON
`promptFile` field leaves the input unchanged; and a prompt-file read
error occurs only when the flag or the JSON field actually carries a
non-empty path. -/
theorem trailing_flags_ignored (env : Env) (l : List String) (input : Input) :
    (env.args = l ++ ["--input-file"] → "--input-file" ∉ l →
       (env.stdinTTY = false → resolveInputData env = .ok (.raw env.stdinData))
       ∧ ∀ p, resolveInputData env ≠ .error (.inputFileRead p))
  ∧ (env.args = l ++ ["--prompt-file"] → "--prompt-file" ∉ l →
       otruthy input.promptFile = false →
       applyPromptFile env input = .ok input)
  ∧ (∀ p, applyPromptFile env input = .error (.promptFileRead p) →
       flagArg env.args "--prompt-file" = some p
       ∨ (input.promptFile = some p ∧ p ≠ "")) := by
  refine ⟨?_, ?_, ?_⟩
  · intro hargs hnotin
    have hflag : flagArg env.args "--input-file" = none := by
      rw [hargs]; exact flagArg_trailing l _ hnotin
    refine ⟨?_, ?_⟩
    · intro htty
      simp [resolveInputData, hflag, htty]
    · intro p hcontra
      simp only [resolveInputData, hflag] at hcontra
      by_cases htty : env.stdinTTY = false
      · simp [htty] at hcontra
      · simp only [if_neg htty] at hcontra
        rcases ha : env.args with _ | ⟨a, rest⟩ <;> rw [ha] at hcontra
        · simp at hcontra
        · by_cases hsw : a.startsWith "--" = true <;> simp [hsw] at hcontra
  · intro hargs hnotin hpf
    have hflag : flagArg env.args "--prompt-file" = none := by
      rw [hargs]; exact flagArg_trailing l _ hnotin
    rcases hpfv : input.promptFile with _ | pf
    · simp [applyPromptFile, hflag, hpfv]
    · rw [hpfv] at hpf
      simp only [otruthy] at hpf
      have : pf = "" := by simpa using hpf
      simp [applyPromptFile, hflag, hpfv, this]
  · intro p h
    simp only [applyPromptFile] at h
    rcases hflag : flagArg env.args "--prompt-file" with _ | path <;> rw [hflag] at h
    · rcases hpfv : input.promptFile with _ | pf <;> rw [hpfv] at h
      · simp at h
      · by_cases hpe : pf = ""
        · simp [hpe] at h
        · right
          rcases hc : env.fs pf with _ | c <;> simp [hpe, hc] at h
          subst h
          exact ⟨rfl, hpe⟩
    · left
      rcases hc : env.fs path with _ | c <;> simp [hc] at h
      subst h
      rfl

/-- C9 witness: with `["hello", "--input-file"]` and piped stdin, the
trailing flag is ignored and stdin is read. -/
theorem trailing_flags_witness :
    envTrail.args = ["hello"] ++ ["--input-file"]
    ∧ resolveInputData envTrail = .ok (.raw envTrail.stdinData) :=
  ⟨rfl, ((trailing_flags_ignored envTrail ["hello"] inputCont).1 rfl
      (by decide)).1 rfl⟩

/-- C10: a present-but-empty `context` behaves exactly like an absent one
(the outbound text is the prompt verbatim and `hasContext` reports false),
and the same truthiness rule governs the `topic` and `workingDirectory`
presence flags. -/
theorem empty_fields_spec (input : Input) :
    (input.context = some "" →
       buildFullPrompt input = buildFullPrompt { input with context := none }
       ∧ buildFullPrompt input = input.prompt.getD ""
       ∧ mkReport input = mkReport { input with context := none }
       ∧ (mkReport input).hasContext = false)
  ∧ (input.topic = some "" →
       mkReport input = mkReport { input with topic := none }
       ∧ (mkReport input).hasTopic = false)
  ∧ (input.workingDirectory = some "" →
       mkReport input = mkReport { input with workingDirectory := none }
       ∧ (mkReport input).hasWorkingDirectory = false) := by
  refine ⟨?_, ?_, ?_⟩ <;> intro h <;> simp [buildFullPrompt, mkReport, h, otruthy]

/-- C10 witness: all-empty optional fields report absent and leave the
outbound text equal to the prompt. -/
theorem empty_fields_witness :
    inputEmptyCtx.context = some ""
    ∧ buildFullPrompt inputEmptyCtx = inputEmptyCtx.prompt.getD ""
    ∧ (mkReport inputEmptyCtx).hasContext = false :=
  ⟨rfl, ((empty_fields_spec inputEmptyCtx).1 rfl).2.1,
    ((empty_fields_spec inputEmptyCtx).1 rfl).2.2.2⟩
